import Mathlib

/-!
Shallow embedding of the CxSCA client library (`@checkmarx/cx-common-js-client`).

The embedding translates `src/services/clients/scaClient.ts` into pure Lean
functions.  Remote calls made through the HTTP client are modelled by an
environment record that fixes, for each call the code can make, either the
response payload or a transport failure (`Except String _`, the error carrying
the thrown message).  Each operation returns its outcome together with the
list of network calls it performed, in order, so that claims about "before any
network call" and about call ordering become statements about that trace.

Thrown errors are modelled by `ScaError`: `ScaError.error` is a plain
JavaScript `Error` and `ScaError.taskSkipped` is the distinct
`TaskSkippedError` class.

The threshold evaluator (`ScaSummaryEvaluator`) and the polling waiter
(`SCAWaiter`) are part of this repository but their sources are not present;
only the evaluator's unit tests and the waiter's call site are.  They are
modelled from the spec, as marked on their definitions.
-/

namespace Sca

/-- Severity labels used by the threshold evaluator. -/
inductive Severity
  | high
  | medium
  | low
deriving DecidableEq, Repr

/-- Threshold-relevant part of `ScaConfig`: the enabled flag and the three
per-severity ceilings, as set by the unit tests
(`vulnerabilityThreshold`, `highThreshold`, `mediumThreshold`, `lowThreshold`). -/
structure ScaThresholdConfig where
  vulnerabilityThreshold : Bool
  highThreshold : Nat
  mediumThreshold : Nat
  lowThreshold : Nat
deriving DecidableEq, Repr

/-- Aggregated per-severity vulnerability counts handed to the evaluator
(`highResults`, `mediumResults`, `lowResults` in the tests). -/
structure VulnerabilityResults where
  highResults : Nat
  mediumResults : Nat
  lowResults : Nat
deriving DecidableEq, Repr

/-- One threshold violation: severity label, observed count, configured ceiling. -/
structure ThresholdError where
  severity : Severity
  observed : Nat
  threshold : Nat
deriving DecidableEq, Repr

/-- Scan summary as consumed by the tests: the list of threshold violations. -/
structure ScanSummary where
  thresholdErrors : List ThresholdError
deriving DecidableEq, Repr

/-- Predicate the tests call `hasThresholdErrors()`: the violation list is
non-empty. -/
def ScanSummary.hasThresholdErrors (s : ScanSummary) : Bool :=
  0 < s.thresholdErrors.length

/-- Modelled from the spec: `ScaSummaryEvaluator.getScanSummary` (its source
file is not under `src/`; only its unit tests are).  Spec §4.5: if the enabled
flag is false the result is empty unconditionally; otherwise each severity
whose observed count is strictly greater than its ceiling contributes one
violation, independently of the others, in severity order high, medium, low. -/
def getScanSummary (cfg : ScaThresholdConfig) (v : VulnerabilityResults) : ScanSummary :=
  if cfg.vulnerabilityThreshold = false then ⟨[]⟩
  else
    ⟨(if cfg.highThreshold < v.highResults then
        [⟨Severity.high, v.highResults, cfg.highThreshold⟩] else [])
      ++ (if cfg.mediumThreshold < v.mediumResults then
        [⟨Severity.medium, v.mediumResults, cfg.mediumThreshold⟩] else [])
      ++ (if cfg.lowThreshold < v.lowResults then
        [⟨Severity.low, v.lowResults, cfg.lowThreshold⟩] else [])⟩

/-- Scan statuses of spec §4.3: `Queued → Running → {Finished, Failed, Canceled}`. -/
inductive ScanStatus
  | queued
  | running
  | finished
  | failed
  | canceled
deriving DecidableEq, Repr

/-- Terminal statuses: `Finished`, `Failed`, `Canceled`. -/
def ScanStatus.isTerminal : ScanStatus → Bool
  | .finished => true
  | .failed => true
  | .canceled => true
  | _ => false

/-- Outcome of the waiter.  `timeout` is the distinct give-up outcome of spec
§4.3, different from the remote-reported terminal statuses. -/
inductive WaiterOutcome
  | finished
  | failed
  | canceled
  | timeout
deriving DecidableEq, Repr

/-- Modelled from the spec: the polling loop of `SCAWaiter.waitForScanToFinish`
(its source file is not under `src/`; only its call site in `scaClient.ts` is).
Spec §4.3: poll the status at a fixed interval up to a configured maximum wait;
a terminal status stops the loop and is returned; exhausting the budget without
seeing a terminal status yields the distinct Timeout outcome.  `statusAt i` is
the status the service reports at the i-th poll and the first argument of the
recursion is the remaining poll budget (maximum wait divided by the interval). -/
def waitForScanToFinish (statusAt : Nat → ScanStatus) : Nat → Nat → WaiterOutcome
  | 0, _ => .timeout
  | fuel + 1, i =>
    match statusAt i with
    | .finished => .finished
    | .failed => .failed
    | .canceled => .canceled
    | .queued => waitForScanToFinish statusAt fuel (i + 1)
    | .running => waitForScanToFinish statusAt fuel (i + 1)

/-- Errors thrown by the client: a plain `Error` or the distinct
`TaskSkippedError` class, each carrying its message. -/
inductive ScaError
  | error (msg : String)
  | taskSkipped (msg : String)
deriving DecidableEq, Repr

/-- Message carried by a thrown error (`err.message`). -/
def ScaError.message : ScaError → String
  | .error m => m
  | .taskSkipped m => m

/-- Source location type of a scan (`SourceLocationType`). -/
inductive SourceLocationType
  | remoteRepository
  | localDirectory
deriving DecidableEq, Repr

/-- Request bodies the client posts, restricted to the fields the code builds:
the empty body of the get-upload-URL call, the create-project body, and the
start-scan body with project id, source location type and handler url. -/
inductive RequestBody
  | empty
  | projectName (name : String)
  | scanRequest (projectId : String) (locType : SourceLocationType) (handlerUrl : String)
deriving DecidableEq, Repr

/-- One network call performed by the client: a GET, a POST with its body, or
the `curl -X PUT` upload of the zipped source to the storage url. -/
inductive NetCall
  | getRequest (path : String)
  | postRequest (path : String) (body : RequestBody)
  | putUpload (url : String) (file : String)
deriving DecidableEq, Repr

/-- Endpoint `ScaClient.PROJECTS`. -/
def PROJECTS : String := "/risk-management/projects"

/-- Endpoint `ScaClient.ZIP_UPLOAD`. -/
def ZIP_UPLOAD : String := "/api/uploads"

/-- Endpoint `ScaClient.CREATE_SCAN`. -/
def CREATE_SCAN : String := "/api/scans"

/-- Path of the report-id lookup keyed by the scan id. -/
def reportIdPath (scanId : String) : String :=
  "/risk-management/scans/" ++ scanId ++ "/riskReportId"

/-- Path of the summary report keyed by the report id. -/
def summaryPath (reportId : String) : String :=
  "/risk-management/riskReports/" ++ reportId ++ "/summary"

/-- Path of the findings list keyed by the report id. -/
def vulnerabilitiesPath (reportId : String) : String :=
  "/risk-management/riskReports/" ++ reportId ++ "/vulnerabilities"

/-- Path of the package inventory keyed by the report id. -/
def packagesPath (reportId : String) : String :=
  "/risk-management/riskReports/" ++ reportId ++ "/packages"

/-- Model of `RemoteRepositoryInfo`: the remote repository url of the scan config. -/
structure RemoteRepositoryInfo where
  url : String
deriving DecidableEq, Repr

/-- Response of the get-upload-URL call, as the code inspects it: possibly a
missing `url` field (`none`).  The surrounding `Option` at the use site models
a null response. -/
structure UploadUrlResponse where
  url : Option String
deriving DecidableEq, Repr

/-- Response of the start-scan call, as the code inspects it: possibly a
missing `id` field (`none`).  The surrounding `Option` at the use site models
a null response. -/
structure ScanResponse where
  id : Option String
deriving DecidableEq, Repr

/-- Environment of one `createScan` run: the configuration fields the code
reads and the outcome of each remote interaction it can attempt.  A
`Except.error m` models the call throwing a transport error with message `m`. -/
structure ScaEnv where
  sourceLocationType : SourceLocationType
  remoteRepositoryInfo : Option RemoteRepositoryInfo
  zipFileCount : Nat
  tempFilename : String
  uploadUrlResponse : Except String (Option UploadUrlResponse)
  uploadResult : Except String Unit
  startScanResponse : Except String (Option ScanResponse)

/-- Model of `ScaClient.sendStartScanRequest`: posts the start-scan body and returns
the raw response. -/
def sendStartScanRequest (env : ScaEnv) (projectId : String)
    (locType : SourceLocationType) (sourceUrl : String) :
    Except ScaError (Option ScanResponse) × List NetCall :=
  match env.startScanResponse with
  | .error m =>
    (.error (.error m), [.postRequest CREATE_SCAN (.scanRequest projectId locType sourceUrl)])
  | .ok r =>
    (.ok r, [.postRequest CREATE_SCAN (.scanRequest projectId locType sourceUrl)])

/-- Model of `ScaClient.submitSourceFromRemoteRepo`: throws when
`config.remoteRepositoryInfo` is undefined, and otherwise posts the start-scan
request with the configured url (the url itself is not validated). -/
def submitSourceFromRemoteRepo (env : ScaEnv) (projectId : String) :
    Except ScaError (Option ScanResponse) × List NetCall :=
  match env.remoteRepositoryInfo with
  | none =>
    (.error (.error "URL must be provided in CxSCA configuration when using source location of type REMOTE_REPOSITORY."), [])
  | some repoInfo =>
    sendStartScanRequest env projectId .remoteRepository repoInfo.url

/-- Model of `ScaClient.getSourceUploadUrl`: posts an empty body to the upload endpoint
and fails unless the response is truthy with a truthy `url` field. -/
def getSourceUploadUrl (env : ScaEnv) : Except ScaError String × List NetCall :=
  match env.uploadUrlResponse with
  | .error m => (.error (.error m), [.postRequest ZIP_UPLOAD .empty])
  | .ok none => (.error (.error "Unable to get the upload URL."), [.postRequest ZIP_UPLOAD .empty])
  | .ok (some r) =>
    match r.url with
    | none => (.error (.error "Unable to get the upload URL."), [.postRequest ZIP_UPLOAD .empty])
    | some u =>
      if u = "" then
        (.error (.error "Unable to get the upload URL."), [.postRequest ZIP_UPLOAD .empty])
      else (.ok u, [.postRequest ZIP_UPLOAD .empty])

/-- Model of `ScaClient.uploadToAWS`: the `curl -X PUT` upload of the archive; a failing
`execSync` throws. -/
def uploadToAWS (env : ScaEnv) (url file : String) :
    Except ScaError Unit × List NetCall :=
  match env.uploadResult with
  | .error m => (.error (.error m), [.putUpload url file])
  | .ok _ => (.ok (), [.putUpload url file])

/-- Model of `ScaClient.submitSourceFromLocalDir`: zips the source, throws the distinct
`TaskSkippedError` when the archive holds zero files, and otherwise obtains an
upload url, uploads the archive, and posts the start-scan request. -/
def submitSourceFromLocalDir (env : ScaEnv) (projectId : String) :
    Except ScaError (Option ScanResponse) × List NetCall :=
  if env.zipFileCount = 0 then
    (.error (.taskSkipped "Zip file is empty: no source to scan"), [])
  else
    match getSourceUploadUrl env with
    | (.error e, t1) => (.error e, t1)
    | (.ok uploadedArchiveUrl, t1) =>
      match uploadToAWS env uploadedArchiveUrl env.tempFilename with
      | (.error e, t2) => (.error e, t1 ++ t2)
      | (.ok _, t2) =>
        match sendStartScanRequest env projectId .localDirectory uploadedArchiveUrl with
        | (r, t3) => (r, t1 ++ t2 ++ t3)

/-- Model of `ScaClient.extractScanIdFrom`: returns `response["id"]` when the response
and its `id` field are truthy, and otherwise throws. -/
def extractScanIdFrom : Option ScanResponse → Except ScaError String
  | none => .error (.error "Unable to get scan ID.")
  | some r =>
    match r.id with
    | none => .error (.error "Unable to get scan ID.")
    | some i => if i = "" then .error (.error "Unable to get scan ID.") else .ok i

/-- Model of `ScaClient.createScan`: branches on the source location type, extracts the
scan id from the response, and wraps any thrown error into a plain `Error`
prefixed with its own context message. -/
def createScan (env : ScaEnv) (projectId : String) :
    Except ScaError String × List NetCall :=
  let submitted :=
    match env.sourceLocationType with
    | .remoteRepository => submitSourceFromRemoteRepo env projectId
    | .localDirectory => submitSourceFromLocalDir env projectId
  match submitted with
  | (.error e, t) => (.error (.error ("Error creating CxSCA scan. " ++ e.message)), t)
  | (.ok r, t) =>
    match extractScanIdFrom r with
    | .error e => (.error (.error ("Error creating CxSCA scan. " ++ e.message)), t)
    | .ok scanId => (.ok scanId, t)

/-- Project record returned by the projects endpoint: id and name. -/
structure Project where
  id : String
  name : String
deriving DecidableEq, Repr

/-- Environment of one `resolveProject` run: the response of the get-all-
projects call and of the create-project call (`newProject.id`). -/
structure ProjectEnv where
  allProjects : Except String (List Project)
  createProjectResponse : Except String String

/-- Prefix test on character lists, mirroring a regex literal matching at the
head of the remaining input. -/
def charsStartWith : List Char → List Char → Bool
  | [], _ => true
  | _ :: _, [] => false
  | p :: ps, c :: cs => p == c && charsStartWith ps cs

/-- Containment test on character lists: the pattern occurs somewhere in the
haystack. -/
def charsContain (pat : List Char) : List Char → Bool
  | [] => charsStartWith pat []
  | c :: cs => charsStartWith pat (c :: cs) || charsContain pat cs

/-- Model of the name test `name.match(projectName)` in `ScaClient.getProjectIdByName`: JavaScript
compiles the argument into an unanchored RegExp and searches the string, so a
match anywhere in the name counts.  The embedding covers patterns without
regex metacharacters, for which the search is substring containment. -/
def jsMatch (s pattern : String) : Bool :=
  charsContain pattern.toList s.toList

/-- First project of the collection, in order, whose name matches the
requested name — the loop of `ScaClient.getProjectIdByName`. -/
def findMatchingProject (projectName : String) : List Project → Option Project
  | [] => none
  | p :: ps =>
    if jsMatch p.name projectName then some p else findMatchingProject projectName ps

/-- Model of `ScaClient.getProjectIdByName`: throws on an empty name before fetching
anything; otherwise fetches the full project collection and assigns the id of
the first name match to the `projectId` field, leaving it at its prior value
`projectId0` when nothing matches. -/
def getProjectIdByName (projectName : String) (env : ProjectEnv) (projectId0 : String) :
    Except ScaError String × List NetCall :=
  if projectName = "" then
    (.error (.error "Non-empty project name must be provided."), [])
  else
    match env.allProjects with
    | .error m => (.error (.error m), [.getRequest PROJECTS])
    | .ok allProjectsList =>
      match findMatchingProject projectName allProjectsList with
      | some p => (.ok p.id, [.getRequest PROJECTS])
      | none => (.ok projectId0, [.getRequest PROJECTS])

/-- Model of `ScaClient.resolveProject` on a fresh client (`projectId` field initially
the empty string): looks the project up by name and, when the resulting
`projectId` field is still falsy, creates a new project and adopts the
returned id. -/
def resolveProject (projectName : String) (env : ProjectEnv) :
    Except ScaError String × List NetCall :=
  match getProjectIdByName projectName env "" with
  | (.error e, t) => (.error e, t)
  | (.ok pid, t) =>
    if pid = "" then
      match env.createProjectResponse with
      | .error m =>
        (.error (.error m), t ++ [.postRequest PROJECTS (.projectName projectName)])
      | .ok newId =>
        (.ok newId, t ++ [.postRequest PROJECTS (.projectName projectName)])
    else (.ok pid, t)

/-- Summary payload of the risk report, with the fields the client reads. -/
structure ScaSummaryResults where
  riskReportId : String
  highVulnerabilityCount : Nat
  mediumVulnerabilityCount : Nat
  lowVulnerabilityCount : Nat
deriving DecidableEq, Repr

/-- One finding of the findings list (payload abstracted). -/
structure Finding where
  id : String
deriving DecidableEq, Repr

/-- One package of the package inventory (payload abstracted). -/
structure Package where
  id : String
deriving DecidableEq, Repr

/-- Model of `SCAResults` as populated by a successful retrieval. -/
structure SCAResults where
  scanId : String
  summary : ScaSummaryResults
  findings : List Finding
  packages : List Package
  webReportLink : String
  scaResultReady : Bool
deriving DecidableEq, Repr

/-- Environment of one `retrieveScanResults` run: the outcome of each of the
four GET calls the code can make. -/
structure RetrieveEnv where
  reportIdResponse : Except String String
  summaryResponse : Except String ScaSummaryResults
  findingsResponse : Except String (List Finding)
  packagesResponse : Except String (List Package)

/-- Model of `ScaClient.getWebReportLink`: returns the templated link when the
configured web app url is truthy, and otherwise the empty string while
recording a warning (the second component).  The whole body sits in a
try/catch, so the function is total and never throws. -/
def getWebReportLink (webAppUrl projectId reportId : String) : String × Bool :=
  if webAppUrl = "" then ("", true)
  else (webAppUrl ++ "/#/projects/" ++ projectId ++ "/reports/" ++ reportId, false)

/-- Context prefix `retrieveScanResults` puts in front of the message of any
error thrown while fetching the report. -/
def retrieveErrorWrap (m : String) : ScaError :=
  .error ("Error retrieving CxSCA scan results. " ++ m)

/-- Model of `ScaClient.retrieveScanResults`: resolves the report id from the scan id,
then fetches summary, findings and packages keyed by the report id, builds the
fully populated `SCAResults` with the web report link, and wraps any thrown
error into a single retrieval failure carrying the original message. -/
def retrieveScanResults (webAppUrl projectId scanId : String) (env : RetrieveEnv) :
    Except ScaError SCAResults × List NetCall :=
  match env.reportIdResponse with
  | .error m => (.error (retrieveErrorWrap m), [.getRequest (reportIdPath scanId)])
  | .ok reportId =>
    match env.summaryResponse with
    | .error m =>
      (.error (retrieveErrorWrap m),
        [.getRequest (reportIdPath scanId), .getRequest (summaryPath reportId)])
    | .ok scanSummaryResult =>
      match env.findingsResponse with
      | .error m =>
        (.error (retrieveErrorWrap m),
          [.getRequest (reportIdPath scanId), .getRequest (summaryPath reportId),
            .getRequest (vulnerabilitiesPath reportId)])
      | .ok findings =>
        match env.packagesResponse with
        | .error m =>
          (.error (retrieveErrorWrap m),
            [.getRequest (reportIdPath scanId), .getRequest (summaryPath reportId),
              .getRequest (vulnerabilitiesPath reportId), .getRequest (packagesPath reportId)])
        | .ok packages =>
          (.ok
            { scanId := scanId
              summary := scanSummaryResult
              findings := findings
              packages := packages
              webReportLink := (getWebReportLink webAppUrl projectId reportId).1
              scaResultReady := true },
            [.getRequest (reportIdPath scanId), .getRequest (summaryPath reportId),
              .getRequest (vulnerabilitiesPath reportId), .getRequest (packagesPath reportId)])

/-- Environment of a local-directory run whose archive came out empty. -/
def envZeroFiles : ScaEnv :=
  { sourceLocationType := .localDirectory
    remoteRepositoryInfo := none
    zipFileCount := 0
    tempFilename := "cxsrc-1.zip"
    uploadUrlResponse := .ok (some ⟨some "https://storage/upload-1"⟩)
    uploadResult := .ok ()
    startScanResponse := .ok (some ⟨some "scan-1"⟩) }

/-- Environment of a local-directory run whose upload fails. -/
def envUploadFails : ScaEnv :=
  { sourceLocationType := .localDirectory
    remoteRepositoryInfo := none
    zipFileCount := 3
    tempFilename := "cxsrc-2.zip"
    uploadUrlResponse := .ok (some ⟨some "https://storage/upload-2"⟩)
    uploadResult := .error "upload failed"
    startScanResponse := .ok (some ⟨some "scan-2"⟩) }

/-- Environment of a remote-repository run whose configured repository info is
present but carries an empty url, with the service accepting the start-scan
request. -/
def envEmptyRemoteUrl : ScaEnv :=
  { sourceLocationType := .remoteRepository
    remoteRepositoryInfo := some ⟨""⟩
    zipFileCount := 0
    tempFilename := ""
    uploadUrlResponse := .ok none
    uploadResult := .ok ()
    startScanResponse := .ok (some ⟨some "scan-3"⟩) }

/-- Environment of a remote-repository run whose start-scan response carries no
scan id. -/
def envNoScanId : ScaEnv :=
  { sourceLocationType := .remoteRepository
    remoteRepositoryInfo := some ⟨"https://github.example/repo.git"⟩
    zipFileCount := 0
    tempFilename := ""
    uploadUrlResponse := .ok none
    uploadResult := .ok ()
    startScanResponse := .ok (some ⟨none⟩) }

/-- Project environment holding two projects, the second of which contains the
requested name as a proper substring. -/
def envTwoProjects : ProjectEnv :=
  { allProjects := .ok [⟨"id-1", "other"⟩, ⟨"id-2", "team-project-alpha"⟩]
    createProjectResponse := .ok "id-new" }

/-- Project environment holding one matching project whose id is the empty
string. -/
def envFalsyProjectId : ProjectEnv :=
  { allProjects := .ok [⟨"", "foo"⟩]
    createProjectResponse := .ok "id-new-2" }

/-- Project environment with an empty project collection. -/
def envNoProjects : ProjectEnv :=
  { allProjects := .ok []
    createProjectResponse := .ok "id-created" }

/-- Retrieval environment in which all four calls succeed. -/
def envRetrieveOk : RetrieveEnv :=
  { reportIdResponse := .ok "rep-1"
    summaryResponse := .ok ⟨"rep-1", 1, 2, 3⟩
    findingsResponse := .ok [⟨"f1"⟩]
    packagesResponse := .ok [⟨"pk1"⟩] }

/-! Theorems. -/

/-- C1: with the threshold flag enabled, the evaluator produces a violation for
severity S iff the observed count of S is strictly greater than the ceiling of
S, each severity independently of the others; counts {high 3, medium 8, low 4}
against ceilings {high 1, medium 5, low 10} yield exactly the two violations
high and medium, in that order, and `hasThresholdErrors` is true. -/
theorem getScanSummary_violation_iff :
    (∀ (cfg : ScaThresholdConfig) (v : VulnerabilityResults),
        cfg.vulnerabilityThreshold = true →
          ((∃ e ∈ (getScanSummary cfg v).thresholdErrors, e.severity = Severity.high) ↔
            cfg.highThreshold < v.highResults)
          ∧ ((∃ e ∈ (getScanSummary cfg v).thresholdErrors, e.severity = Severity.medium) ↔
            cfg.mediumThreshold < v.mediumResults)
          ∧ ((∃ e ∈ (getScanSummary cfg v).thresholdErrors, e.severity = Severity.low) ↔
            cfg.lowThreshold < v.lowResults))
    ∧ (getScanSummary ⟨true, 1, 5, 10⟩ ⟨3, 8, 4⟩).thresholdErrors.map ThresholdError.severity
        = [Severity.high, Severity.medium]
    ∧ ScanSummary.hasThresholdErrors (getScanSummary ⟨true, 1, 5, 10⟩ ⟨3, 8, 4⟩) = true := by
  refine ⟨?_, by decide, by decide⟩
  intro cfg v h
  unfold getScanSummary
  rw [h]
  simp only [Bool.true_eq_false, if_false]
  refine ⟨?_, ?_, ?_⟩ <;>
    · split_ifs <;> simp_all

/-- Witness for C1 at the concrete counts and ceilings of the claim. -/
theorem getScanSummary_violation_iff_witness :
    (∃ e ∈ (getScanSummary ⟨true, 1, 5, 10⟩ ⟨3, 8, 4⟩).thresholdErrors,
        e.severity = Severity.high) ↔ 1 < 3 :=
  (getScanSummary_violation_iff.1 ⟨true, 1, 5, 10⟩ ⟨3, 8, 4⟩ rfl).1

/-- Helper for C9: a run of non-terminal statuses across the whole remaining
poll budget makes the waiter time out, from any starting poll index. -/
theorem waitForScanToFinish_timeout_of_no_terminal (statusAt : Nat → ScanStatus) :
    ∀ (fuel i : Nat), (∀ j, i ≤ j → j < i + fuel → (statusAt j).isTerminal = false) →
      waitForScanToFinish statusAt fuel i = WaiterOutcome.timeout := by
  intro fuel
  induction fuel with
  | zero => intro i _; rfl
  | succ n ih =>
    intro i h
    have hi : (statusAt i).isTerminal = false := h i le_rfl (by omega)
    cases hst : statusAt i with
    | finished => rw [hst] at hi; simp [ScanStatus.isTerminal] at hi
    | failed => rw [hst] at hi; simp [ScanStatus.isTerminal] at hi
    | canceled => rw [hst] at hi; simp [ScanStatus.isTerminal] at hi
    | queued =>
      have := ih (i + 1) (fun j hj1 hj2 => h j (by omega) (by omega))
      simp [waitForScanToFinish, hst, this]
    | running =>
      have := ih (i + 1) (fun j hj1 hj2 => h j (by omega) (by omega))
      simp [waitForScanToFinish, hst, this]

/-- C9: a polled status sequence that never reaches a terminal state within the
configured poll budget makes the waiter return the Timeout outcome, which is
distinct from the remote-reported Failed and Canceled outcomes and is never a
false Finished. -/
theorem scaWaiter_timeout_distinct :
    ∀ (statusAt : Nat → ScanStatus) (maxPolls : Nat),
      (∀ i, i < maxPolls → (statusAt i).isTerminal = false) →
        waitForScanToFinish statusAt maxPolls 0 = WaiterOutcome.timeout
        ∧ WaiterOutcome.timeout ≠ WaiterOutcome.failed
        ∧ WaiterOutcome.timeout ≠ WaiterOutcome.canceled
        ∧ WaiterOutcome.timeout ≠ WaiterOutcome.finished := by
  intro statusAt maxPolls h
  refine ⟨?_, by decide, by decide, by decide⟩
  exact waitForScanToFinish_timeout_of_no_terminal statusAt maxPolls 0
    (fun j _ hj2 => h j (by omega))

/-- Witness for C9: a sequence stuck at Running for a budget of five polls. -/
theorem scaWaiter_timeout_distinct_witness :
    waitForScanToFinish (fun _ => ScanStatus.running) 5 0 = WaiterOutcome.timeout :=
  (scaWaiter_timeout_distinct (fun _ => ScanStatus.running) 5 (fun _ _ => rfl)).1

/-- C8: constructing the web report link is a total function (the body sits in
a try/catch, so it never throws): a truthy base url yields the templated link
with the project and report identifiers and no warning, and an unset base url
yields the empty string with a recorded warning. -/
theorem getWebReportLink_never_throws :
    ∀ (webAppUrl projectId reportId : String),
      (webAppUrl = "" → getWebReportLink webAppUrl projectId reportId = ("", true))
      ∧ (webAppUrl ≠ "" →
          getWebReportLink webAppUrl projectId reportId =
            (webAppUrl ++ "/#/projects/" ++ projectId ++ "/reports/" ++ reportId, false)) := by
  intro w p r
  constructor
  · intro h
    simp [getWebReportLink, h]
  · intro h
    simp [getWebReportLink, h]

/-- Witness for C8 at an unset base url. -/
theorem getWebReportLink_never_throws_witness :
    getWebReportLink "" "proj-7" "rep-9" = ("", true) :=
  (getWebReportLink_never_throws "" "proj-7" "rep-9").1 rfl

/-- C3: a local-directory submission whose archive holds zero files throws the
distinct `TaskSkippedError` class — not a plain `Error` — with an empty call
trace: the pipeline stops before the get-upload-URL, upload, and start-scan
calls. -/
theorem submitSourceFromLocalDir_skipped_on_empty :
    ∀ (env : ScaEnv) (projectId : String), env.zipFileCount = 0 →
      submitSourceFromLocalDir env projectId =
        (.error (.taskSkipped "Zip file is empty: no source to scan"), [])
      ∧ (∀ m m' : String, ScaError.taskSkipped m ≠ ScaError.error m') := by
  intro env pid h
  refine ⟨?_, fun m m' => by simp⟩
  simp [submitSourceFromLocalDir, h]

/-- Witness for C3 at a concrete empty-archive environment. -/
theorem submitSourceFromLocalDir_skipped_on_empty_witness :
    submitSourceFromLocalDir envZeroFiles "proj-1" =
      (.error (.taskSkipped "Zip file is empty: no source to scan"), []) :=
  (submitSourceFromLocalDir_skipped_on_empty envZeroFiles "proj-1" rfl).1

/-- Helper for C5: the call trace of a local-directory submission is one of
four shapes — stopped before any call, stopped at the get-upload-URL call,
stopped at a failed upload, or the full get-upload-URL / upload / start-scan
sequence after a successful upload. -/
theorem submitSourceFromLocalDir_trace_cases (env : ScaEnv) (pid : String) :
    (submitSourceFromLocalDir env pid).2 = [] ∨
    (submitSourceFromLocalDir env pid).2 = [.postRequest ZIP_UPLOAD .empty] ∨
    (∃ u m, env.uploadResult = .error m ∧
      (submitSourceFromLocalDir env pid).2 =
        [.postRequest ZIP_UPLOAD .empty, .putUpload u env.tempFilename]) ∨
    (∃ u, env.uploadResult = .ok () ∧
      (submitSourceFromLocalDir env pid).2 =
        [.postRequest ZIP_UPLOAD .empty, .putUpload u env.tempFilename,
          .postRequest CREATE_SCAN (.scanRequest pid .localDirectory u)]) := by
  rcases env with ⟨slt, rri, zfc, tf, uur, ur, ssr⟩
  by_cases hz : zfc = 0
  · left
    simp [submitSourceFromLocalDir, hz]
  · rcases uur with m | ou
    · right; left
      simp [submitSourceFromLocalDir, getSourceUploadUrl, hz]
    · rcases ou with _ | r
      · right; left
        simp [submitSourceFromLocalDir, getSourceUploadUrl, hz]
      · rcases r with ⟨_ | u⟩
        · right; left
          simp [submitSourceFromLocalDir, getSourceUploadUrl, hz]
        · by_cases hu : u = ""
          · right; left
            simp [submitSourceFromLocalDir, getSourceUploadUrl, hz, hu]
          · rcases ur with m | u0
            · right; right; left
              refine ⟨u, m, rfl, ?_⟩
              simp [submitSourceFromLocalDir, getSourceUploadUrl, uploadToAWS, hz, hu]
            · right; right; right
              refine ⟨u, rfl, ?_⟩
              rcases ssr with m | r2 <;>
                simp [submitSourceFromLocalDir, getSourceUploadUrl, uploadToAWS,
                  sendStartScanRequest, hz, hu]

/-- C5: in the local-directory flow the start-scan request is posted only after
the upload of the archive succeeded — a failed upload means no start-scan call
at all — and whenever a start-scan call is in the trace, the trace is exactly
the get-upload-URL call, then the upload, then the start-scan call. -/
theorem upload_completes_before_startScan :
    ∀ (env : ScaEnv) (pid : String),
      ((∃ m, env.uploadResult = .error m) →
        ∀ b, NetCall.postRequest CREATE_SCAN b ∉ (submitSourceFromLocalDir env pid).2)
      ∧ (∀ b, NetCall.postRequest CREATE_SCAN b ∈ (submitSourceFromLocalDir env pid).2 →
          env.uploadResult = .ok () ∧
          ∃ u, (submitSourceFromLocalDir env pid).2 =
            [.postRequest ZIP_UPLOAD .empty, .putUpload u env.tempFilename,
              .postRequest CREATE_SCAN b]) := by
  intro env pid
  have hcases := submitSourceFromLocalDir_trace_cases env pid
  have hne : CREATE_SCAN ≠ ZIP_UPLOAD := by decide
  constructor
  · rintro ⟨m, hm⟩ b hmem
    rcases hcases with h | h | ⟨u, m2, hm2, h⟩ | ⟨u, hok, h⟩
    · simp [h] at hmem
    · rw [h] at hmem
      simp at hmem
      exact hne hmem.1
    · rw [h] at hmem
      simp at hmem
      exact hne hmem.1
    · rw [hok] at hm
      exact Except.noConfusion hm
  · intro b hmem
    rcases hcases with h | h | ⟨u, m2, hm2, h⟩ | ⟨u, hok, h⟩
    · simp [h] at hmem
    · rw [h] at hmem
      simp at hmem
      exact absurd hmem.1 hne
    · rw [h] at hmem
      simp at hmem
      exact absurd hmem.1 hne
    · refine ⟨hok, u, ?_⟩
      rw [h] at hmem
      simp at hmem
      rcases hmem with ⟨h1, _⟩ | h2
      · exact absurd h1 hne
      · rw [h, h2]

/-- Witness for C5: with a failing upload, no start-scan request appears in the
trace. -/
theorem upload_completes_before_startScan_witness :
    NetCall.postRequest CREATE_SCAN
        (.scanRequest "proj-2" .localDirectory "https://storage/upload-2")
      ∉ (submitSourceFromLocalDir envUploadFails "proj-2").2 :=
  (upload_completes_before_startScan envUploadFails "proj-2").1 ⟨"upload failed", rfl⟩ _

/-- C2: the code checks only that `config.remoteRepositoryInfo` is defined —
with the info present but its url empty, the submission does NOT fail with a
configuration error; it posts the start-scan request, a network call whose
body carries the empty url.  This contradicts the claim (and the code's own
error text demanding a url). -/
theorem submitRemoteRepo_empty_url_reaches_network :
    envEmptyRemoteUrl.remoteRepositoryInfo = some ⟨""⟩ ∧
    submitSourceFromRemoteRepo envEmptyRemoteUrl "proj-3" =
      (.ok (some ⟨some "scan-3"⟩),
        [.postRequest CREATE_SCAN (.scanRequest "proj-3" .remoteRepository "")]) := by
  exact ⟨rfl, rfl⟩

/-- C6: when the start-scan response arrives, the scan id is extracted from it:
extraction succeeds exactly when the response is truthy with a truthy `id`
field, in which case `createScan` returns that id; a response lacking an id
makes `createScan` a hard failure carrying the "Unable to get scan ID." text,
and the single-element trace shows the start-scan request is not retried. -/
theorem createScan_scan_id_spec :
    ∀ (env : ScaEnv) (pid : String) (repoInfo : RemoteRepositoryInfo)
      (resp : Option ScanResponse),
      env.sourceLocationType = .remoteRepository →
      env.remoteRepositoryInfo = some repoInfo →
      env.startScanResponse = .ok resp →
      (∀ i, extractScanIdFrom resp = .ok i ↔ (resp = some ⟨some i⟩ ∧ i ≠ ""))
      ∧ (∀ i, extractScanIdFrom resp = .ok i →
          createScan env pid =
            (.ok i, [.postRequest CREATE_SCAN (.scanRequest pid .remoteRepository repoInfo.url)]))
      ∧ (extractScanIdFrom resp = .error (.error "Unable to get scan ID.") →
          createScan env pid =
            (.error (.error "Error creating CxSCA scan. Unable to get scan ID."),
              [.postRequest CREATE_SCAN (.scanRequest pid .remoteRepository repoInfo.url)])) := by
  intro env pid repoInfo resp hslt hrri hssr
  refine ⟨?_, ?_, ?_⟩
  · intro i
    constructor
    · intro hext
      rcases resp with _ | ⟨_ | j⟩
      · simp [extractScanIdFrom] at hext
      · simp [extractScanIdFrom] at hext
      · by_cases hj : j = ""
        · simp [extractScanIdFrom, hj] at hext
        · simp only [extractScanIdFrom, if_neg hj] at hext
          injection hext with hji
          subst hji
          exact ⟨rfl, hj⟩
    · rintro ⟨hresp, hi⟩
      subst hresp
      simp [extractScanIdFrom, hi]
  · intro i hext
    simp [createScan, hslt, submitSourceFromRemoteRepo, hrri, sendStartScanRequest, hssr, hext]
  · intro hext
    simp [createScan, hslt, submitSourceFromRemoteRepo, hrri, sendStartScanRequest, hssr, hext,
      ScaError.message]

/-- Witness for C6: a response without an id makes `createScan` fail hard after
a single start-scan request. -/
theorem createScan_scan_id_spec_witness :
    createScan envNoScanId "proj-4" =
      (.error (.error "Error creating CxSCA scan. Unable to get scan ID."),
        [.postRequest CREATE_SCAN
          (.scanRequest "proj-4" .remoteRepository "https://github.example/repo.git")]) :=
  (createScan_scan_id_spec envNoScanId "proj-4" ⟨"https://github.example/repo.git"⟩
    (some ⟨none⟩) rfl rfl rfl).2.2 rfl

/-- Helper: `charsStartWith` decides the prefix relation. -/
theorem charsStartWith_iff : ∀ (ps cs : List Char), charsStartWith ps cs = true ↔ ps <+: cs := by
  intro ps
  induction ps with
  | nil =>
    intro cs
    simp [charsStartWith]
  | cons p pt ih =>
    intro cs
    cases cs with
    | nil => simp [charsStartWith]
    | cons c ct =>
      simp [charsStartWith, List.cons_prefix_cons, ih ct]

/-- Helper: `charsContain` decides the substring (infix) relation. -/
theorem charsContain_iff : ∀ (pat hay : List Char), charsContain pat hay = true ↔ pat <:+: hay := by
  intro pat hay
  induction hay with
  | nil =>
    simp [charsContain, charsStartWith_iff]
  | cons c ct ih =>
    simp [charsContain, charsStartWith_iff, ih, List.infix_cons_iff]

/-- Helper: the search loop finds no project exactly when no project name
matches. -/
theorem findMatchingProject_eq_none_iff (projectName : String) :
    ∀ ps : List Project, findMatchingProject projectName ps = none ↔
      ∀ q ∈ ps, jsMatch q.name projectName = false := by
  intro ps
  induction ps with
  | nil => simp [findMatchingProject]
  | cons p pt ih =>
    by_cases hm : jsMatch p.name projectName = true
    · simp [findMatchingProject, hm]
    · simp only [Bool.not_eq_true] at hm
      simp [findMatchingProject, hm, ih]

/-- Helper: the search loop binds to the first matching project in collection
order. -/
theorem findMatchingProject_append_first (projectName : String) (p : Project) :
    ∀ (pre post : List Project), (∀ q ∈ pre, jsMatch q.name projectName = false) →
      jsMatch p.name projectName = true →
      findMatchingProject projectName (pre ++ p :: post) = some p := by
  intro pre
  induction pre with
  | nil =>
    intro post _ hp
    simp [findMatchingProject, hp]
  | cons q qt ih =>
    intro post hpre hp
    have hq : jsMatch q.name projectName = false := hpre q (by simp)
    simp only [List.cons_append, findMatchingProject, hq, Bool.false_eq_true, if_false]
    exact ih post (fun r hr => hpre r (by simp [hr])) hp

/-- C7: `resolveProject` on an empty name fails with the invalid-argument error
before the project collection is fetched (empty call trace); on a non-empty
name it fetches the full collection, adopts the id of a found name match, and
when nothing matches it creates a new project and adopts the returned id. -/
theorem resolveProject_spec :
    ∀ (projectName : String) (env : ProjectEnv),
      (projectName = "" →
        resolveProject projectName env =
          (.error (.error "Non-empty project name must be provided."), []))
      ∧ (∀ ps p, projectName ≠ "" → env.allProjects = .ok ps →
          findMatchingProject projectName ps = some p → p.id ≠ "" →
          resolveProject projectName env = (.ok p.id, [.getRequest PROJECTS]))
      ∧ (∀ ps newId, projectName ≠ "" → env.allProjects = .ok ps →
          findMatchingProject projectName ps = none →
          env.createProjectResponse = .ok newId →
          resolveProject projectName env =
            (.ok newId,
              [.getRequest PROJECTS, .postRequest PROJECTS (.projectName projectName)])) := by
  intro projectName env
  refine ⟨?_, ?_, ?_⟩
  · intro h
    simp [resolveProject, getProjectIdByName, h]
  · intro ps p hn hall hfind hpid
    simp [resolveProject, getProjectIdByName, hn, hall, hfind, hpid]
  · intro ps newId hn hall hfind hcreate
    simp [resolveProject, getProjectIdByName, hn, hall, hfind, hcreate]

/-- Witness for C7: an empty collection forces creation and the created id is
adopted. -/
theorem resolveProject_spec_witness :
    resolveProject "my-project" envNoProjects =
      (.ok "id-created",
        [.getRequest PROJECTS, .postRequest PROJECTS (.projectName "my-project")]) :=
  (resolveProject_spec "my-project" envNoProjects).2.2 [] "id-created"
    (by decide) rfl rfl rfl

/-- C10 counterexample: the requested name "foo" matches the name of the only
project in the collection, yet — because that project's id is the empty string,
which is falsy — a new project is still created (the create POST is issued and
its id adopted), refuting "created only when no project name matches". -/
theorem resolveProject_creates_despite_match :
    jsMatch "foo" "foo" = true ∧
    resolveProject "foo" envFalsyProjectId =
      (.ok "id-new-2",
        [.getRequest PROJECTS, .postRequest PROJECTS (.projectName "foo")]) := by
  exact ⟨by decide, rfl⟩

/-- C10 (amended): matching is the unanchored regex search of JavaScript
`String.match` — on metacharacter-free patterns, substring containment, so
matches other than exact name equality count; resolution binds to the first
project in collection order whose name matches and has a truthy id; and a new
project is created only when no project name matches or the first matching
project's id is the empty string. -/
theorem resolveProject_first_regex_match :
    (∀ s pattern : String, jsMatch s pattern = true ↔ pattern.toList <:+: s.toList)
    ∧ (∀ (projectName : String) (env : ProjectEnv) (pre post : List Project) (p : Project),
        projectName ≠ "" → env.allProjects = .ok (pre ++ p :: post) →
        (∀ q ∈ pre, jsMatch q.name projectName = false) →
        jsMatch p.name projectName = true → p.id ≠ "" →
        resolveProject projectName env = (.ok p.id, [.getRequest PROJECTS]))
    ∧ (∀ (projectName : String) (env : ProjectEnv) (ps : List Project),
        projectName ≠ "" → env.allProjects = .ok ps →
        NetCall.postRequest PROJECTS (.projectName projectName)
          ∈ (resolveProject projectName env).2 →
        (∀ q ∈ ps, jsMatch q.name projectName = false)
          ∨ ∃ p, findMatchingProject projectName ps = some p ∧ p.id = "") := by
  refine ⟨?_, ?_, ?_⟩
  · intro s pattern
    exact charsContain_iff pattern.toList s.toList
  · intro projectName env pre post p hn hall hpre hp hpid
    have hfind := findMatchingProject_append_first projectName p pre post hpre hp
    simp [resolveProject, getProjectIdByName, hn, hall, hfind, hpid]
  · intro projectName env ps hn hall hmem
    rcases hfind : findMatchingProject projectName ps with _ | p
    · exact Or.inl ((findMatchingProject_eq_none_iff projectName ps).mp hfind)
    · by_cases hpid : p.id = ""
      · exact Or.inr ⟨p, rfl, hpid⟩
      · exfalso
        simp [resolveProject, getProjectIdByName, hn, hall, hfind, hpid] at hmem

/-- Witness for the amended C10: the requested name "project" is a proper
substring of "team-project-alpha", not equal to it, and resolution binds to
that project — the first (and only) match in collection order. -/
theorem resolveProject_first_regex_match_witness :
    resolveProject "project" envTwoProjects = (.ok "id-2", [.getRequest PROJECTS]) :=
  resolveProject_first_regex_match.2.1 "project" envTwoProjects
    [⟨"id-1", "other"⟩] [] ⟨"id-2", "team-project-alpha"⟩
    (by decide) rfl (by decide) (by decide) (by decide)

/-- C4: result retrieval succeeds exactly when all four underlying calls (the
report-id lookup and the three report-keyed fetches of summary, findings and
packages) succeed; a success carries the fully populated result and the trace
of the three independent report-keyed GETs; and any underlying failure is
wrapped into the single retrieval-failure error carrying the original
message. -/
theorem retrieveScanResults_all_or_nothing :
    ∀ (webAppUrl projectId scanId : String) (env : RetrieveEnv),
      ((∃ r, (retrieveScanResults webAppUrl projectId scanId env).1 = .ok r) ↔
        ((∃ x, env.reportIdResponse = .ok x) ∧ (∃ x, env.summaryResponse = .ok x)
          ∧ (∃ x, env.findingsResponse = .ok x) ∧ (∃ x, env.packagesResponse = .ok x)))
      ∧ (∀ rid summaryR findingsR packagesR,
          env.reportIdResponse = .ok rid → env.summaryResponse = .ok summaryR →
          env.findingsResponse = .ok findingsR → env.packagesResponse = .ok packagesR →
          retrieveScanResults webAppUrl projectId scanId env =
            (.ok ⟨scanId, summaryR, findingsR, packagesR,
                (getWebReportLink webAppUrl projectId rid).1, true⟩,
              [.getRequest (reportIdPath scanId), .getRequest (summaryPath rid),
                .getRequest (vulnerabilitiesPath rid), .getRequest (packagesPath rid)]))
      ∧ (∀ e, (retrieveScanResults webAppUrl projectId scanId env).1 = .error e →
          ∃ m, e = retrieveErrorWrap m ∧
            (env.reportIdResponse = .error m ∨ env.summaryResponse = .error m
              ∨ env.findingsResponse = .error m ∨ env.packagesResponse = .error m)) := by
  intro w p s env
  rcases env with ⟨rid0, sum0, fnd0, pkg0⟩
  rcases rid0 with m1 | rid <;> rcases sum0 with m2 | sr <;>
    rcases fnd0 with m3 | fr <;> rcases pkg0 with m4 | pr <;>
    refine ⟨?_, ?_, ?_⟩ <;>
    simp [retrieveScanResults] <;>
    first
    | exact ⟨_, rfl, by simp⟩
    | (intro rid2 s2 f2 p2 h1 h2 h3 h4
       subst h1; subst h2; subst h3; subst h4
       simp)

/-- Witness for C4 at an environment in which all four calls succeed. -/
theorem retrieveScanResults_all_or_nothing_witness :
    retrieveScanResults "https://web.app" "proj-5" "scan-5" envRetrieveOk =
      (.ok ⟨"scan-5", ⟨"rep-1", 1, 2, 3⟩, [⟨"f1"⟩], [⟨"pk1"⟩],
          (getWebReportLink "https://web.app" "proj-5" "rep-1").1, true⟩,
        [.getRequest (reportIdPath "scan-5"), .getRequest (summaryPath "rep-1"),
          .getRequest (vulnerabilitiesPath "rep-1"), .getRequest (packagesPath "rep-1")]) :=
  (retrieveScanResults_all_or_nothing "https://web.app" "proj-5" "scan-5" envRetrieveOk).2.1
    "rep-1" ⟨"rep-1", 1, 2, 3⟩ [⟨"f1"⟩] [⟨"pk1"⟩] rfl rfl rfl rfl

end Sca
